import Mathlib

/-!
Verification of the PhotoCoachPro scoring core: a shallow embedding in Lean 4
of the pure scoring pipeline (scoring/aggregate.py, print/dpi.py,
critique/exposure.py, critique/sharpness.py, critique/color.py), with
theorems settling the specified properties.

Numeric convention: Python floats are modelled as exact rationals `ℚ`
(the sharpness analyzer, which uses `math.exp`, is modelled over `ℝ`).
Python's `round(x, n)` (round-half-to-even) is modelled exactly by
`pyRound`; Python `raise` is modelled by `Except.error`.
-/

set_option maxRecDepth 2000

namespace PhotoCoach

instance {ε α : Type} [DecidableEq ε] [DecidableEq α] : DecidableEq (Except ε α) := fun
  | .error e, .error f => decidable_of_iff (e = f) (by simp)
  | .error _, .ok _ => isFalse (by simp)
  | .ok _, .error _ => isFalse (by simp)
  | .ok a, .ok b => decidable_of_iff (a = b) (by simp)

/-- Python's built-in `round` to an integer: round half to even
(`f` is the floor, `q - f` the fractional part). -/
def roundEven {α : Type} [LinearOrderedField α] [FloorRing α] (q : α) : ℤ :=
  if q - (⌊q⌋ : α) < 1/2 then ⌊q⌋
  else if q - (⌊q⌋ : α) > 1/2 then ⌊q⌋ + 1
  else if ⌊q⌋ % 2 = 0 then ⌊q⌋ else ⌊q⌋ + 1

/-- Python's `round(x, ndigits)` for `ndigits ≥ 0`: round half to even at the
given decimal place. -/
def pyRound {α : Type} [LinearOrderedField α] [FloorRing α] (x : α) (ndigits : ℕ) : α :=
  (roundEven (x * (10:α)^ndigits) : α) / (10:α)^ndigits

/-- Embeds `_clamp(x, lo, hi) = max(lo, min(hi, x))` from aggregate.py / dpi.py / color.py. -/
def pyClamp {α : Type} [LinearOrder α] (x lo hi : α) : α :=
  max lo (min hi x)

/-! ## scoring/aggregate.py -/

/-- The `ScoreWeights` dataclass with its default weights 0.40 / 0.35 / 0.25. -/
structure ScoreWeights where
  exposure : ℚ := 0.40
  sharpness : ℚ := 0.35
  color : ℚ := 0.25
deriving DecidableEq

/-- Output record of `score_image` (the `explain` strings, which are two fixed
constants, are omitted). `subscores_0_100` is flattened into three fields. -/
structure AggregateScore where
  overall_0_100 : ℚ
  grade : String
  weights : ScoreWeights
  sub_exposure : ℚ
  sub_sharpness : ℚ
  sub_color : ℚ
deriving DecidableEq

/-- A metric dict as consumed by `score_image`: only its optional
`"score_0_100"` entry matters (`_getf(d, "score_0_100", 50.0)`). -/
def getScore (d : Option ℚ) : ℚ := d.getD 50

/-- The clamped, normalized weighted overall score of `score_image`,
before the final `round(overall, 1)`. -/
def overallRaw (exposure sharpness color : Option ℚ) (weights : Option ScoreWeights) : ℚ :=
  let w := weights.getD {}
  let e := pyClamp (getScore exposure) 0 100
  let s := pyClamp (getScore sharpness) 0 100
  let c := pyClamp (getScore color) 0 100
  let total_w := max 0.0001 (w.exposure + w.sharpness + w.color)
  pyClamp ((e * w.exposure + s * w.sharpness + c * w.color) / total_w) 0 100

/-- The letter-grade thresholds of `score_image`. -/
def gradeOf (overall : ℚ) : String :=
  if overall ≥ 93 then "A"
  else if overall ≥ 85 then "B"
  else if overall ≥ 75 then "C"
  else if overall ≥ 65 then "D"
  else "F"

/-- Embeds `score_image(exposure, sharpness, color, weights)` from aggregate.py. -/
def score_image (exposure sharpness color : Option ℚ)
    (weights : Option ScoreWeights) : AggregateScore :=
  let w := weights.getD {}
  let e := pyClamp (getScore exposure) 0 100
  let s := pyClamp (getScore sharpness) 0 100
  let c := pyClamp (getScore color) 0 100
  let overall := overallRaw exposure sharpness color weights
  { overall_0_100 := pyRound overall 1
    grade := gradeOf overall
    weights := w
    sub_exposure := pyRound e 1
    sub_sharpness := pyRound s 1
    sub_color := pyRound c 1 }

/-- Rank of a letter grade, for stating monotonicity (F=0 … A=4). -/
def gradeRank (g : String) : ℕ :=
  if g = "A" then 4
  else if g = "B" then 3
  else if g = "C" then 2
  else if g = "D" then 1
  else 0

/-! ## print/dpi.py -/

/-- The `PrintSizeInches` dataclass. -/
structure PrintSizeInches where
  width_in : ℚ
  height_in : ℚ
deriving DecidableEq

/-- Output record of `effective_ppi`. -/
structure EffectivePpi where
  ppi_width : ℚ
  ppi_height : ℚ
  ppi_min : ℚ
deriving DecidableEq

/-- Embeds `effective_ppi(px_w, px_h, size)`: raising `ValueError` is modelled as
`Except.error` with the message. -/
def effective_ppi (px_w px_h : ℤ) (size : PrintSizeInches) :
    Except String EffectivePpi :=
  if size.width_in ≤ 0 ∨ size.height_in ≤ 0 then
    .error "Print size must be positive inches."
  else
    let ppi_w : ℚ := px_w / size.width_in
    let ppi_h : ℚ := px_h / size.height_in
    .ok { ppi_width := pyRound ppi_w 2
          ppi_height := pyRound ppi_h 2
          ppi_min := pyRound (min ppi_w ppi_h) 2 }

/-- Output record of `quality_tier`. -/
structure QualityTier where
  tier : String
  message : String
deriving DecidableEq

/-- Embeds `quality_tier(ppi_min)`. -/
def quality_tier (ppi_min : ℚ) : QualityTier :=
  if ppi_min ≥ 300 then
    { tier := "excellent", message := "Excellent for high-quality prints (300+ PPI)." }
  else if ppi_min ≥ 240 then
    { tier := "very_good", message := "Very good print quality (240+ PPI)." }
  else if ppi_min ≥ 200 then
    { tier := "good", message := "Good print quality for most uses (200+ PPI)." }
  else if ppi_min ≥ 150 then
    { tier := "fair", message := "Fair quality; best for larger viewing distance (150+ PPI)." }
  else
    { tier := "low", message := "Low PPI; print may look soft/pixelated." }

/-- Output record of `max_print_size_for_target_ppi`. -/
structure MaxPrintSize where
  max_width_in : ℚ
  max_height_in : ℚ
  target_ppi : ℚ
deriving DecidableEq

/-- Embeds `max_print_size_for_target_ppi(px_w, px_h, target_ppi)`. -/
def max_print_size_for_target_ppi (px_w px_h : ℤ) (target_ppi : ℚ) :
    Except String MaxPrintSize :=
  if target_ppi ≤ 0 then
    .error "target_ppi must be positive."
  else
    .ok { max_width_in := pyRound ((px_w : ℚ) / target_ppi) 2
          max_height_in := pyRound ((px_h : ℚ) / target_ppi) 2
          target_ppi := target_ppi }

/-- Output record of `dpi_recommendations`: the `targets` sub-dict is
flattened into one field per preset, and the three keys only present when a
target print size was supplied become `Option` fields. -/
structure DpiRecommendations where
  width_px : ℤ
  height_px : ℤ
  max_print_at_300ppi : MaxPrintSize
  max_print_at_240ppi : MaxPrintSize
  max_print_at_200ppi : MaxPrintSize
  max_print_at_150ppi : MaxPrintSize
  target_print_size_in : Option PrintSizeInches
  effective : Option EffectivePpi
  quality : Option QualityTier
deriving DecidableEq

/-- Python truthiness of an optional float argument (`if target_print_w_in
and target_print_h_in`): `None` and `0.0` are falsy. -/
def pyTruthy (x : Option ℚ) : Bool :=
  match x with
  | none => false
  | some v => decide (v ≠ 0)

/-- Embeds `dpi_recommendations(px_w, px_h, target_print_w_in, target_print_h_in)`. -/
def dpi_recommendations (px_w px_h : ℤ)
    (target_print_w_in target_print_h_in : Option ℚ) :
    Except String DpiRecommendations :=
  if px_w ≤ 0 ∨ px_h ≤ 0 then
    .error "Pixel dimensions must be positive integers."
  else do
    let t300 ← max_print_size_for_target_ppi px_w px_h 300
    let t240 ← max_print_size_for_target_ppi px_w px_h 240
    let t200 ← max_print_size_for_target_ppi px_w px_h 200
    let t150 ← max_print_size_for_target_ppi px_w px_h 150
    if pyTruthy target_print_w_in && pyTruthy target_print_h_in then
      let size : PrintSizeInches :=
        { width_in := target_print_w_in.getD 0, height_in := target_print_h_in.getD 0 }
      let eff ← effective_ppi px_w px_h size
      .ok { width_px := px_w, height_px := px_h
            max_print_at_300ppi := t300, max_print_at_240ppi := t240
            max_print_at_200ppi := t200, max_print_at_150ppi := t150
            target_print_size_in := some size
            effective := some eff
            quality := some (quality_tier eff.ppi_min) }
    else
      .ok { width_px := px_w, height_px := px_h
            max_print_at_300ppi := t300, max_print_at_240ppi := t240
            max_print_at_200ppi := t200, max_print_at_150ppi := t150
            target_print_size_in := none
            effective := none
            quality := none }

/-! ## critique/exposure.py

The analyzer is embedded from the point where the decoded grayscale image
has been reduced to its 256-bin luminance histogram (`hist = img.histogram()`);
the histogram is the function's only input from the image. -/

/-- Embeds `total = sum(hist) or 1`. -/
def totalOf (hist : ℕ → ℕ) : ℕ :=
  let s := ∑ j in Finset.range 256, hist j
  if s = 0 then 1 else s

/-- The cumulative histogram `cdf[i]` (count of bins `0..i`). -/
def cdfAt (hist : ℕ → ℕ) (i : ℕ) : ℕ :=
  ∑ j in Finset.range (i + 1), hist j

/-- The scan `for i, v in enumerate(cdf): if v >= target: return i` followed by
`return 255`, as a fuel-indexed first-hit search started at `scanFirst p 256 0`. -/
def scanFirst (p : ℕ → Bool) : ℕ → ℕ → ℕ
  | 0, _ => 255
  | fuel + 1, i => if p i then i else scanFirst p fuel (i + 1)

/-- Embeds `percentile_value(frac)` from exposure.py: the first bin whose cumulative
count reaches `target = int(frac * total)`, else 255. (`int()` truncates toward
zero, which agrees with `⌊·⌋` since `frac * total ≥ 0` at every use site.) -/
def percentile_value (hist : ℕ → ℕ) (frac : ℚ) : ℕ :=
  let total := totalOf hist
  let target : ℤ := ⌊frac * (total : ℚ)⌋
  scanFirst (fun i => decide (target ≤ (cdfAt hist i : ℤ))) 256 0

/-- Output record of `exposure_metrics` on the success path. -/
structure ExposureResult where
  available : Bool
  brightness_mean_0_255 : ℚ
  brightness_p05_0_255 : ℕ
  brightness_p95_0_255 : ℕ
  dynamic_range_0_255 : ℚ
  clipped_shadows_pct : ℚ
  clipped_highlights_pct : ℚ
  score_0_100 : ℚ
  notes : List String
deriving DecidableEq

/-- Embeds `exposure_metrics` from exposure.py, from the luminance histogram on. -/
def exposure_metrics_from_hist (hist : ℕ → ℕ) : ExposureResult :=
  let total := totalOf hist
  let p05 := percentile_value hist 0.05
  let p95 := percentile_value hist 0.95
  let mean : ℚ := (∑ i in Finset.range 256, (i : ℚ) * (hist i : ℚ)) / (total : ℚ)
  let clipped_shadows : ℚ := ((hist 0 + hist 1 + hist 2 : ℕ) : ℚ) / (total : ℚ) * 100
  let clipped_highlights : ℚ := ((hist 253 + hist 254 + hist 255 : ℕ) : ℚ) / (total : ℚ) * 100
  let dynamic_range : ℚ := (p95 : ℚ) - (p05 : ℚ)
  let notes : List String :=
    (if mean < 110 then ["Image looks underexposed (overall too dark)."]
     else if mean > 145 then ["Image looks overexposed (overall too bright)."]
     else ["Overall brightness looks reasonable."])
    ++ (if dynamic_range < 60 then ["Low dynamic range (may look flat or muddy)."]
        else if dynamic_range > 170 then ["Very high dynamic range (could be harsh or high-contrast)."]
        else ["Dynamic range looks healthy."])
    ++ (if clipped_highlights > 2 then ["Noticeable highlight clipping (blown whites)."] else [])
    ++ (if clipped_shadows > 2 then ["Noticeable shadow clipping (crushed blacks)."] else [])
  let score1 : ℚ := 100 - (if mean < 110 then min 35 ((110 - mean) * 0.5) else 0)
  let score2 : ℚ := score1 - (if mean > 145 then min 35 ((mean - 145) * 0.5) else 0)
  let score3 : ℚ := score2 - min 30 (clipped_highlights * 4)
  let score4 : ℚ := score3 - min 30 (clipped_shadows * 4)
  let score5 : ℚ :=
    if dynamic_range < 60 then score4 - (60 - dynamic_range) * 0.25
    else if 80 ≤ dynamic_range ∧ dynamic_range ≤ 160 then score4 + 3
    else score4
  let score : ℚ := max 0 (min 100 score5)
  { available := true
    brightness_mean_0_255 := pyRound mean 2
    brightness_p05_0_255 := p05
    brightness_p95_0_255 := p95
    dynamic_range_0_255 := pyRound dynamic_range 2
    clipped_shadows_pct := pyRound clipped_shadows 3
    clipped_highlights_pct := pyRound clipped_highlights 3
    score_0_100 := pyRound score 1
    notes := notes }

/-- A uniform mid-gray image's histogram: all `n` pixels in luminance bin 128. -/
def uniformMidGrayHist (n : ℕ) : ℕ → ℕ :=
  fun i => if i = 128 then n else 0

/-- A histogram entirely in bin 0. -/
def bin0Hist (n : ℕ) : ℕ → ℕ :=
  fun i => if i = 0 then n else 0

/-! ## critique/color.py

Embedded from the point where the decoded (and possibly downscaled) RGB
image has been reduced to its Pillow statistics: the three channel means,
the HSV saturation-channel mean (`hsv_stat.mean[1] / 255`), and the
saturation channel's 256-bin histogram. -/

/-- Embeds `percentile_s(frac)` from color.py: like `percentile_value` but the hit
at bin `i` returns `i / 255.0`; the no-hit fallback `return 1.0` coincides
with a hit at bin 255 (`255 / 255.0`). -/
def percentile_s (s_hist : ℕ → ℕ) (frac : ℚ) : ℚ :=
  let total := totalOf s_hist
  let target : ℤ := ⌊frac * (total : ℚ)⌋
  (scanFirst (fun i => decide (target ≤ (cdfAt s_hist i : ℤ))) 256 0 : ℚ) / 255

/-- Output record of `color_metrics` on the success path. -/
structure ColorResult where
  available : Bool
  mean_r : ℚ
  mean_g : ℚ
  mean_b : ℚ
  saturation_mean_0_1 : ℚ
  saturation_p95_0_1 : ℚ
  warmth_r_minus_b : ℚ
  green_magenta_g_minus_avg_rb : ℚ
  score_0_100 : ℚ
  notes : List String
deriving DecidableEq

/-- Embeds `color_metrics` from color.py, from the image statistics on. -/
def color_metrics_from_stats (mean_r mean_g mean_b s_mean_0_1 : ℚ)
    (s_hist : ℕ → ℕ) : ColorResult :=
  let warmth : ℚ := mean_r - mean_b
  let g_minus_rb : ℚ := mean_g - (mean_r + mean_b) / 2
  let s_p95_0_1 : ℚ := percentile_s s_hist 0.95
  let notes : List String :=
    (if s_mean_0_1 < 0.12 then ["Colors look very muted (low saturation)."]
     else if s_mean_0_1 < 0.22 then ["Colors look slightly muted (cinematic/soft palette)."]
     else if s_mean_0_1 ≤ 0.45 then ["Saturation looks natural/healthy."]
     else if s_mean_0_1 ≤ 0.60 then ["Saturation is strong; watch for oversaturation."]
     else ["Very strong saturation; risk of clipped/unnatural color."])
    ++ (if warmth > 18 then ["Warm color cast detected (reds/yellows dominate)."]
        else if warmth < -18 then ["Cool color cast detected (blues dominate)."]
        else ["White balance looks fairly neutral."])
    ++ (if g_minus_rb > 10 then ["Slight green cast detected (often from fluorescents/shade)."]
        else if g_minus_rb < -10 then ["Slight magenta cast detected (often from mixed lighting)."]
        else [])
  let score1 : ℚ := 100 - (if s_mean_0_1 < 0.22 then (0.22 - s_mean_0_1) * 220 else 0)
  let score2 : ℚ := score1 - (if s_mean_0_1 > 0.55 then (s_mean_0_1 - 0.55) * 180 else 0)
  let score3 : ℚ := score2 - min 18 (|warmth| * 0.35)
  let score4 : ℚ := score3 - min 12 (|g_minus_rb| * 0.40)
  let score5 : ℚ := if 0.35 ≤ s_p95_0_1 ∧ s_p95_0_1 ≤ 0.85 then score4 + 3 else score4
  let score : ℚ := pyClamp score5 0 100
  { available := true
    mean_r := pyRound mean_r 2
    mean_g := pyRound mean_g 2
    mean_b := pyRound mean_b 2
    saturation_mean_0_1 := pyRound s_mean_0_1 4
    saturation_p95_0_1 := pyRound s_p95_0_1 4
    warmth_r_minus_b := pyRound warmth 2
    green_magenta_g_minus_avg_rb := pyRound g_minus_rb 2
    score_0_100 := pyRound score 1
    notes := notes }

/-! ## critique/sharpness.py

Embedded from the point where the Laplacian-filtered luminance image has
been reduced to its standard deviation (`ImageStat.Stat(lap).stddev[0]`).
`math.exp` forces this analyzer to be modelled over `ℝ`. -/

/-- Output record of `sharpness_metrics` on the success path. -/
structure SharpnessResult where
  available : Bool
  laplacian_stddev : ℝ
  laplacian_variance : ℝ
  score_0_100 : ℝ
  notes : List String

/-- Embeds `sharpness_metrics` from sharpness.py, from the Laplacian stddev on. -/
noncomputable def sharpness_metrics_from_stddev (stddev : ℝ) : SharpnessResult :=
  let variance : ℝ := stddev * stddev
  let notes1 : List String :=
    if variance < 60 then ["Image likely soft or slightly out of focus."]
    else if variance < 180 then ["Sharpness looks decent for typical viewing sizes."]
    else ["Strong fine detail; image appears very sharp."]
  let k : ℝ := 180
  let score1 : ℝ := max 0 (min 100 (100 * (1 - Real.exp (-variance / k))))
  let score : ℝ := if variance < 25 then max 0 (score1 - 20) else score1
  let notes : List String := notes1 ++
    (if variance < 25 then
      ["Very low edge energy detected (possible motion blur or heavy noise reduction)."]
     else [])
  { available := true
    laplacian_stddev := pyRound stddev 3
    laplacian_variance := pyRound variance 3
    score_0_100 := pyRound score 1
    notes := notes }

/-! ## Failure-path control flow of the three analyzers

Each of exposure.py, sharpness.py and color.py begins with the same three
steps: `try: from PIL import ... except` (returns `available=False`),
`if not p.exists()` (returns `available=False`), then `Image.open(...)`,
which raises (e.g. `UnidentifiedImageError`) on an undecodable file and is
NOT guarded by any `try`. A raised exception is modelled as `Except.error`;
a returned unavailable-dict as `.ok (.unavailable msg)`. -/

/-- The outcome of an analyzer call, abstracting the success statistics. -/
inductive MetricOutcome where
  | unavailable (error : String)
  | available
deriving DecidableEq

/-- The guard structure of `exposure_metrics`: Pillow import guard, file
existence guard, unguarded `Image.open`. -/
def exposure_metrics_run (pillow_ok file_found decode_ok : Bool) :
    Except String MetricOutcome :=
  if !pillow_ok then .ok (.unavailable "Pillow not installed")
  else if !file_found then .ok (.unavailable "File not found")
  else if !decode_ok then .error "UnidentifiedImageError: cannot identify image file"
  else .ok .available

/-- The guard structure of `sharpness_metrics` (identical to exposure). -/
def sharpness_metrics_run (pillow_ok file_found decode_ok : Bool) :
    Except String MetricOutcome :=
  if !pillow_ok then .ok (.unavailable "Pillow not installed")
  else if !file_found then .ok (.unavailable "File not found")
  else if !decode_ok then .error "UnidentifiedImageError: cannot identify image file"
  else .ok .available

/-- The guard structure of `color_metrics` (identical to exposure). -/
def color_metrics_run (pillow_ok file_found decode_ok : Bool) :
    Except String MetricOutcome :=
  if !pillow_ok then .ok (.unavailable "Pillow not installed")
  else if !file_found then .ok (.unavailable "File not found")
  else if !decode_ok then .error "UnidentifiedImageError: cannot identify image file"
  else .ok .available

/-! ## Shared helper lemmas -/

theorem roundEven_nonneg {α : Type} [LinearOrderedField α] [FloorRing α]
    {q : α} (h : 0 ≤ q) : 0 ≤ roundEven q := by
  have hf : (0 : ℤ) ≤ ⌊q⌋ := Int.floor_nonneg.mpr h
  unfold roundEven
  split_ifs <;> omega

theorem roundEven_le_intCast {α : Type} [LinearOrderedField α] [FloorRing α]
    {q : α} {B : ℤ} (h : q ≤ (B : α)) : roundEven q ≤ B := by
  have hfB : ⌊q⌋ ≤ B := by
    calc ⌊q⌋ ≤ ⌊(B : α)⌋ := Int.floor_le_floor h
    _ = B := Int.floor_intCast B
  have hf : (⌊q⌋ : α) ≤ q := Int.floor_le q
  unfold roundEven
  split_ifs with h1 h2 h3
  · exact hfB
  · -- `q - ⌊q⌋ > 1/2`: then `⌊q⌋ < B`, since `⌊q⌋ = B` would give `q > B`
    rcases lt_or_eq_of_le hfB with hlt | heq
    · omega
    · exfalso
      rw [heq] at h2
      have : (B : α) < q := by linarith
      linarith
  · exact hfB
  · rcases lt_or_eq_of_le hfB with hlt | heq
    · omega
    · exfalso
      rw [heq] at h1
      have : (B : α) < q := by
        push_neg at h1
        linarith
      linarith

theorem abs_roundEven_sub {α : Type} [LinearOrderedField α] [FloorRing α]
    (q : α) : |(roundEven q : α) - q| ≤ 1/2 := by
  have h0 : (⌊q⌋ : α) ≤ q := Int.floor_le q
  have h1 : q < (⌊q⌋ : α) + 1 := Int.lt_floor_add_one q
  unfold roundEven
  split_ifs with hc1 hc2 hc3
  · rw [abs_le]
    constructor <;> push_cast <;> linarith
  · rw [abs_le]
    constructor <;> push_cast <;> linarith
  · rw [abs_le]
    constructor <;> push_cast <;> linarith [le_of_not_lt hc1, le_of_not_lt hc2]
  · rw [abs_le]
    constructor <;> push_cast <;> linarith [le_of_not_lt hc1, le_of_not_lt hc2]

theorem pyRound_nonneg {α : Type} [LinearOrderedField α] [FloorRing α]
    {x : α} (n : ℕ) (h : 0 ≤ x) : 0 ≤ pyRound x n := by
  unfold pyRound
  have h10 : (0:α) < (10:α)^n := by positivity
  have hre : (0:ℤ) ≤ roundEven (x * (10:α)^n) :=
    roundEven_nonneg (by positivity)
  have : (0:α) ≤ (roundEven (x * (10:α)^n) : α) := by exact_mod_cast hre
  positivity

theorem pyRound_le_intCast {α : Type} [LinearOrderedField α] [FloorRing α]
    {x : α} {B : ℤ} (n : ℕ) (h : x ≤ (B : α)) : pyRound x n ≤ (B : α) := by
  unfold pyRound
  have h10 : (0:α) < (10:α)^n := by positivity
  have hxB : x * (10:α)^n ≤ ((B * 10^n : ℤ) : α) := by
    push_cast
    exact mul_le_mul_of_nonneg_right h (le_of_lt h10)
  have hre : roundEven (x * (10:α)^n) ≤ B * 10^n := roundEven_le_intCast hxB
  have hre' : (roundEven (x * (10:α)^n) : α) ≤ ((B * 10^n : ℤ) : α) := by exact_mod_cast hre
  rw [div_le_iff h10]
  push_cast at hre' ⊢
  linarith

theorem abs_pyRound_sub {α : Type} [LinearOrderedField α] [FloorRing α]
    (x : α) (n : ℕ) : |pyRound x n - x| ≤ 1 / (2 * (10:α)^n) := by
  unfold pyRound
  have h10 : (0:α) < (10:α)^n := by positivity
  have key := abs_roundEven_sub (α := α) (x * (10:α)^n)
  have : (roundEven (x * (10:α)^n) : α) / (10:α)^n - x
      = ((roundEven (x * (10:α)^n) : α) - x * (10:α)^n) / (10:α)^n := by
    field_simp
    ring
  rw [this, abs_div, abs_of_pos h10, div_le_div_iff h10 (by positivity)]
  calc |(roundEven (x * (10:α)^n) : α) - x * (10:α)^n| * (2 * (10:α)^n)
      ≤ (1/2) * (2 * (10:α)^n) := by
        apply mul_le_mul_of_nonneg_right key (by positivity)
    _ = (10:α)^n := by ring
    _ ≤ 1 * (10:α)^n := by linarith

/-- Clamping via `pyClamp` lies in `[0, 100]`. -/
theorem pyClamp_mem {α : Type} [LinearOrder α] (x lo hi : α) (h : lo ≤ hi) :
    lo ≤ pyClamp x lo hi ∧ pyClamp x lo hi ≤ hi := by
  unfold pyClamp
  constructor
  · exact le_max_left _ _
  · exact max_le h (min_le_left _ _)

/-- If no index in the fuel window satisfies `p`, the scan falls through to 255. -/
theorem scanFirst_none (p : ℕ → Bool) :
    ∀ (fuel i : ℕ), (∀ k, k < fuel → p (i + k) = false) → scanFirst p fuel i = 255 := by
  intro fuel
  induction fuel with
  | zero => intro i _; rfl
  | succ m ih =>
    intro i h
    have hpi : p i = false := by simpa using h 0 (Nat.succ_pos m)
    show (if p i then i else scanFirst p m (i + 1)) = 255
    rw [hpi]
    simp only [Bool.false_eq_true, if_false]
    apply ih
    intro k hk
    have := h (k + 1) (by omega)
    simpa [Nat.add_assoc, Nat.add_comm 1 k] using this

/-- If `k` is the least offset satisfying `p`, the scan stops exactly there. -/
theorem scanFirst_found (p : ℕ → Bool) :
    ∀ (fuel i k : ℕ), k < fuel → p (i + k) = true →
      (∀ m, m < k → p (i + m) = false) → scanFirst p fuel i = i + k := by
  intro fuel
  induction fuel with
  | zero => intro i k hk; omega
  | succ n ih =>
    intro i k hk hpk hmin
    show (if p i then i else scanFirst p n (i + 1)) = i + k
    rcases Nat.eq_zero_or_pos k with hk0 | hkpos
    · subst hk0
      simp only [Nat.add_zero] at hpk ⊢
      rw [hpk]
      simp
    · have hpi : p i = false := by simpa using hmin 0 hkpos
      rw [hpi]
      simp only [Bool.false_eq_true, if_false]
      have hstep : i + 1 + (k - 1) = i + k := by omega
      have := ih (i + 1) (k - 1) (by omega)
        (by rw [hstep]; exact hpk)
        (by
          intro m hm
          have := hmin (m + 1) (by omega)
          simpa [Nat.add_assoc, Nat.add_comm 1 m] using this)
      rw [this, hstep]

/-- The scan `scanFirst p 256 0` returns the first index in `[0, 256)` satisfying `p`,
and 255 when none does. -/
theorem scanFirst256_spec (p : ℕ → Bool) :
    scanFirst p 256 0 ≤ 255 ∧
    (∀ j, j < scanFirst p 256 0 → p j = false) ∧
    ((∃ i, i < 256 ∧ p i = true) → p (scanFirst p 256 0) = true) ∧
    ((∀ i, i < 256 → p i = false) → scanFirst p 256 0 = 255) := by
  by_cases hex : ∃ i, i < 256 ∧ p i = true
  · obtain ⟨i, hi, hpi⟩ := hex
    have hexQ : ∃ n, p n = true := ⟨i, hpi⟩
    set k := Nat.find hexQ with hkdef
    have hk_spec : p k = true := Nat.find_spec hexQ
    have hk_min : ∀ m, m < k → p m = false := by
      intro m hm
      have := Nat.find_min hexQ hm
      simpa using this
    have hk_le : k ≤ i := Nat.find_min' hexQ hpi
    have hrun : scanFirst p 256 0 = k := by
      have := scanFirst_found p 256 0 k (by omega) (by simpa using hk_spec)
        (by intro m hm; simpa using hk_min m hm)
      simpa using this
    rw [hrun]
    refine ⟨by omega, hk_min, fun _ => hk_spec, ?_⟩
    intro hall
    exact absurd hk_spec (by simp [hall k (by omega)])
  · push_neg at hex
    have hall : ∀ i, i < 256 → p i = false := by
      intro i hi
      simpa using hex i hi
    have hrun : scanFirst p 256 0 = 255 := by
      apply scanFirst_none
      intro k hk
      simpa using hall k (by omega)
    rw [hrun]
    exact ⟨le_refl _, fun j hj => hall j (by omega), fun h => absurd h (by push_neg; intro i hi; simp [hall i hi]), fun _ => rfl⟩

theorem cdfAt_uniformMidGray (n i : ℕ) :
    cdfAt (uniformMidGrayHist n) i = if 128 ≤ i then n else 0 := by
  unfold cdfAt uniformMidGrayHist
  rw [Finset.sum_ite_eq' (Finset.range (i+1)) 128 (fun _ => n)]
  simp [Nat.lt_succ_iff]

theorem totalOf_uniformMidGray (n : ℕ) (hn : n ≠ 0) :
    totalOf (uniformMidGrayHist n) = n := by
  unfold totalOf uniformMidGrayHist
  rw [Finset.sum_ite_eq' (Finset.range 256) 128 (fun _ => n)]
  simp [hn]

theorem cdfAt_bin0 (n i : ℕ) : cdfAt (bin0Hist n) i = n := by
  unfold cdfAt bin0Hist
  rw [Finset.sum_ite_eq' (Finset.range (i+1)) 0 (fun _ => n)]
  simp

theorem totalOf_bin0 (n : ℕ) : totalOf (bin0Hist n) = if n = 0 then 1 else n := by
  unfold totalOf bin0Hist
  rw [Finset.sum_ite_eq' (Finset.range 256) 0 (fun _ => n)]
  simp

/-- On a histogram entirely in bin 0, any percentile query with a fraction
in `[0, 1)` hits bin 0 immediately. -/
theorem percentile_value_bin0 (n : ℕ) (frac : ℚ) (hf0 : 0 ≤ frac) (hf1 : frac < 1) :
    percentile_value (bin0Hist n) frac = 0 := by
  have ht : ⌊frac * (totalOf (bin0Hist n) : ℚ)⌋ ≤ (cdfAt (bin0Hist n) 0 : ℤ) := by
    rw [totalOf_bin0, cdfAt_bin0]
    rcases Nat.eq_zero_or_pos n with h0 | hpos
    · subst h0
      simp only [if_pos rfl]
      push_cast
      rw [mul_one]
      have : ⌊frac⌋ = 0 := Int.floor_eq_zero_iff.mpr ⟨hf0, hf1⟩
      omega
    · rw [if_neg (by omega)]
      calc ⌊frac * (n : ℚ)⌋ ≤ ⌊(n : ℚ)⌋ := by
            apply Int.floor_le_floor
            nlinarith [Nat.cast_nonneg (α := ℚ) n]
        _ = (n : ℤ) := Int.floor_natCast n
  have hrun := scanFirst_found
    (fun i => decide ((⌊frac * (totalOf (bin0Hist n) : ℚ)⌋ : ℤ) ≤ (cdfAt (bin0Hist n) i : ℤ)))
    256 0 0 (by omega) (by simpa using ht) (by omega)
  simpa using hrun

/-- C7: for any 256-bin histogram and fraction `f ∈ [0,1]`, the percentile
function returns the first bin index whose cumulative count meets or exceeds
`⌊f * total⌋` (every earlier bin falls short, and the returned bin qualifies
whenever any bin does), returns 255 when no bin qualifies, and in particular
returns 0 for both the 5th- and 95th-percentile queries on a histogram
entirely in bin 0. -/
theorem C7_percentile_first_qualifying (hist : ℕ → ℕ) (frac : ℚ)
    (hf0 : 0 ≤ frac) (hf1 : frac ≤ 1) :
    percentile_value hist frac ≤ 255 ∧
    (∀ j, j < percentile_value hist frac →
      (cdfAt hist j : ℤ) < ⌊frac * (totalOf hist : ℚ)⌋) ∧
    ((∃ i, i < 256 ∧ ⌊frac * (totalOf hist : ℚ)⌋ ≤ (cdfAt hist i : ℤ)) →
      ⌊frac * (totalOf hist : ℚ)⌋ ≤ (cdfAt hist (percentile_value hist frac) : ℤ)) ∧
    ((∀ i, i < 256 → (cdfAt hist i : ℤ) < ⌊frac * (totalOf hist : ℚ)⌋) →
      percentile_value hist frac = 255) ∧
    (∀ n : ℕ, percentile_value (bin0Hist n) (0.05 : ℚ) = 0 ∧
      percentile_value (bin0Hist n) (0.95 : ℚ) = 0) := by
  obtain ⟨hle, hfirst, hfound, hnone⟩ := scanFirst256_spec
    (fun i => decide ((⌊frac * (totalOf hist : ℚ)⌋ : ℤ) ≤ (cdfAt hist i : ℤ)))
  have hperc : percentile_value hist frac =
      scanFirst
        (fun i => decide ((⌊frac * (totalOf hist : ℚ)⌋ : ℤ) ≤ (cdfAt hist i : ℤ)))
        256 0 := rfl
  rw [hperc]
  refine ⟨hle, ?_, ?_, ?_, ?_⟩
  · intro j hj
    have := hfirst j hj
    simp only [decide_eq_false_iff_not, not_le] at this
    exact this
  · rintro ⟨i, hi, hqi⟩
    have := hfound ⟨i, hi, by simpa using hqi⟩
    simpa using this
  · intro hall
    apply hnone
    intro i hi
    simp only [decide_eq_false_iff_not, not_le]
    exact hall i hi
  · intro n
    exact ⟨percentile_value_bin0 n 0.05 (by norm_num) (by norm_num),
      percentile_value_bin0 n 0.95 (by norm_num) (by norm_num)⟩

theorem C7_percentile_first_qualifying_witness :
    0 ≤ (0.05 : ℚ) ∧ (0.05 : ℚ) ≤ 1 ∧
    (percentile_value (bin0Hist 7) 0.05 ≤ 255 ∧
      (∀ n : ℕ, percentile_value (bin0Hist n) (0.05 : ℚ) = 0 ∧
        percentile_value (bin0Hist n) (0.95 : ℚ) = 0)) := by
  have main := C7_percentile_first_qualifying (bin0Hist 7) 0.05 (by norm_num) (by norm_num)
  exact ⟨by norm_num, by norm_num, main.1, main.2.2.2.2⟩

/-- On the uniform mid-gray histogram with `n` pixels, a percentile query
whose target count lies in `[1, n]` lands exactly on bin 128. -/
theorem percentile_value_uniformMidGray (n : ℕ) (frac : ℚ) (hn : n ≠ 0)
    (ht1 : 1 ≤ ⌊frac * (n : ℚ)⌋) (htn : ⌊frac * (n : ℚ)⌋ ≤ (n : ℤ)) :
    percentile_value (uniformMidGrayHist n) frac = 128 := by
  have htot := totalOf_uniformMidGray n hn
  have hperc : percentile_value (uniformMidGrayHist n) frac =
      scanFirst
        (fun i => decide ((⌊frac * (totalOf (uniformMidGrayHist n) : ℚ)⌋ : ℤ) ≤
          (cdfAt (uniformMidGrayHist n) i : ℤ)))
        256 0 := rfl
  rw [hperc]
  simp only [htot]
  have hrun := scanFirst_found
    (fun i => decide ((⌊frac * (n : ℚ)⌋ : ℤ) ≤ (cdfAt (uniformMidGrayHist n) i : ℤ)))
    256 0 128 (by omega)
    (by
      simp only [Nat.zero_add, cdfAt_uniformMidGray, le_refl, if_pos, decide_eq_true_eq]
      exact htn)
    (by
      intro m hm
      simp only [Nat.zero_add, cdfAt_uniformMidGray, decide_eq_false_iff_not, not_le]
      rw [if_neg (by omega)]
      omega)
  simpa using hrun

/-- Full evaluation of the exposure analyzer on a uniform mid-gray image of
`n ≥ 20` pixels: mean 128, both percentiles at 128, dynamic range 0, no
clipping, and a final score of 85 = 100 − (60 − 0)·0.25. -/
theorem exposure_uniformMidGray_eval (n : ℕ) (hn : 20 ≤ n) :
    (exposure_metrics_from_hist (uniformMidGrayHist n)).score_0_100 = 85 ∧
    (exposure_metrics_from_hist (uniformMidGrayHist n)).brightness_mean_0_255 = 128 ∧
    (exposure_metrics_from_hist (uniformMidGrayHist n)).brightness_p05_0_255 = 128 ∧
    (exposure_metrics_from_hist (uniformMidGrayHist n)).brightness_p95_0_255 = 128 ∧
    (exposure_metrics_from_hist (uniformMidGrayHist n)).dynamic_range_0_255 = 0 ∧
    (exposure_metrics_from_hist (uniformMidGrayHist n)).clipped_shadows_pct = 0 ∧
    (exposure_metrics_from_hist (uniformMidGrayHist n)).clipped_highlights_pct = 0 := by
  have hn0 : n ≠ 0 := by omega
  have hcast : (20 : ℚ) ≤ (n : ℚ) := by exact_mod_cast hn
  have hnpos : (0 : ℚ) < (n : ℚ) := by positivity
  have hp05 : percentile_value (uniformMidGrayHist n) 0.05 = 128 := by
    apply percentile_value_uniformMidGray n _ hn0
    · rw [Int.le_floor]
      push_cast
      linarith
    · calc ⌊(0.05 : ℚ) * (n : ℚ)⌋ ≤ ⌊(n : ℚ)⌋ := by
            apply Int.floor_le_floor
            linarith
        _ = (n : ℤ) := Int.floor_natCast n
  have hp95 : percentile_value (uniformMidGrayHist n) 0.95 = 128 := by
    apply percentile_value_uniformMidGray n _ hn0
    · rw [Int.le_floor]
      push_cast
      linarith
    · calc ⌊(0.95 : ℚ) * (n : ℚ)⌋ ≤ ⌊(n : ℚ)⌋ := by
            apply Int.floor_le_floor
            linarith
        _ = (n : ℤ) := Int.floor_natCast n
  have htot := totalOf_uniformMidGray n hn0
  have hsum : (∑ i in Finset.range 256, (i : ℚ) * (uniformMidGrayHist n i : ℚ))
      = 128 * (n : ℚ) := by
    unfold uniformMidGrayHist
    push_cast
    simp only [mul_ite, mul_zero]
    rw [Finset.sum_ite_eq' (Finset.range 256) 128 (fun i => (i : ℚ) * (n : ℚ))]
    norm_num
  have hmean : (128 : ℚ) * (n : ℚ) / (n : ℚ) = 128 := by
    field_simp
  refine ⟨?_, ?_, ?_, ?_, ?_, ?_, ?_⟩ <;>
    simp only [exposure_metrics_from_hist, hp05, hp95, htot, hsum, hmean] <;>
    norm_num [uniformMidGrayHist, pyRound, roundEven, min_def, max_def]

theorem gradeRank_A : gradeRank "A" = 4 := by decide

theorem gradeRank_B : gradeRank "B" = 3 := by decide

theorem gradeRank_C : gradeRank "C" = 2 := by decide

theorem gradeRank_D : gradeRank "D" = 1 := by decide

theorem gradeRank_F : gradeRank "F" = 0 := by decide

/-- The letter grade improves weakly with the overall score. -/
theorem gradeRank_gradeOf_mono {a b : ℚ} (h : a ≤ b) :
    gradeRank (gradeOf a) ≤ gradeRank (gradeOf b) := by
  unfold gradeOf
  split_ifs <;>
    simp only [gradeRank_A, gradeRank_B, gradeRank_C, gradeRank_D, gradeRank_F] <;>
    (try push_neg at *) <;>
    first
      | linarith
      | norm_num

theorem gradeOf_eq_A_iff (o : ℚ) : gradeOf o = "A" ↔ 93 ≤ o := by
  unfold gradeOf
  split_ifs with h1 h2 h3 h4 <;>
    constructor <;> intro hx <;>
    first
      | rfl
      | linarith
      | (exfalso; revert hx; decide)

theorem gradeOf_eq_B_iff (o : ℚ) : gradeOf o = "B" ↔ 85 ≤ o ∧ o < 93 := by
  unfold gradeOf
  split_ifs with h1 h2 h3 h4 <;>
    constructor <;> intro hx <;>
    first
      | rfl
      | (exact ⟨by linarith, by linarith⟩)
      | (exfalso; revert hx; decide)
      | (exfalso; obtain ⟨hx1, hx2⟩ := hx; linarith)

theorem gradeOf_eq_C_iff (o : ℚ) : gradeOf o = "C" ↔ 75 ≤ o ∧ o < 85 := by
  unfold gradeOf
  split_ifs with h1 h2 h3 h4 <;>
    constructor <;> intro hx <;>
    first
      | rfl
      | (exact ⟨by linarith, by linarith⟩)
      | (exfalso; revert hx; decide)
      | (exfalso; obtain ⟨hx1, hx2⟩ := hx; linarith)

theorem gradeOf_eq_D_iff (o : ℚ) : gradeOf o = "D" ↔ 65 ≤ o ∧ o < 75 := by
  unfold gradeOf
  split_ifs with h1 h2 h3 h4 <;>
    constructor <;> intro hx <;>
    first
      | rfl
      | (exact ⟨by linarith, by linarith⟩)
      | (exfalso; revert hx; decide)
      | (exfalso; obtain ⟨hx1, hx2⟩ := hx; linarith)

theorem gradeOf_eq_F_iff (o : ℚ) : gradeOf o = "F" ↔ o < 65 := by
  unfold gradeOf
  split_ifs with h1 h2 h3 h4 <;>
    constructor <;> intro hx <;>
    first
      | rfl
      | linarith
      | (exfalso; revert hx; decide)

/-! ## Claim theorems: aggregator -/

/-- C1 (counterexample). The claim says `score_image` returns `overall_0_100`
EQUAL to `(exp*w_exp + shp*w_shp + col*w_col) / max(eps, Σw)` with the
subscores echoed back exactly as clamped. In fact the code rounds both to one
decimal before returning them: with exposure score 1.23 (others 50, default
weights) the claimed overall is 30.492 but the function returns 30.5, and the
claimed exposure subscore is 1.23 but the function returns 1.2. -/
theorem C1_claim_counterexample :
    (score_image (some 1.23) (some 50) (some 50) none).overall_0_100 = 30.5 ∧
    pyClamp ((pyClamp (1.23 : ℚ) 0 100 * 0.40 + pyClamp (50 : ℚ) 0 100 * 0.35 +
        pyClamp (50 : ℚ) 0 100 * 0.25) / max 0.0001 (0.40 + 0.35 + 0.25)) 0 100
      = 30.492 ∧
    (30.5 : ℚ) ≠ 30.492 ∧
    (score_image (some 1.23) (some 50) (some 50) none).sub_exposure = 1.2 ∧
    pyClamp (1.23 : ℚ) 0 100 = 1.23 ∧
    (1.2 : ℚ) ≠ 1.23 := by
  refine ⟨?_, ?_, ?_, ?_, ?_, ?_⟩ <;>
    norm_num [score_image, overallRaw, getScore, pyClamp, pyRound, roundEven,
      min_def, max_def]

/-- C1 (amended): for every triple of optional metric scores and every
weights record with non-negative components, `score_image` returns
`overall_0_100` equal to `(exp*w_exp + shp*w_shp + col*w_col) /
max(0.0001, w_exp+w_shp+w_col)` — each input score clamped to [0,100], 50
substituted when absent, result clamped to [0,100] — ROUNDED to one decimal
place; the reported overall lies in [0,100]; and each `subscores_0_100`
entry equals the clamped input score rounded to one decimal place. -/
theorem C1_aggregate_formula_rounded (e s c : Option ℚ) (w : ScoreWeights)
    (hwe : 0 ≤ w.exposure) (hws : 0 ≤ w.sharpness) (hwc : 0 ≤ w.color) :
    (score_image e s c (some w)).overall_0_100 =
      pyRound (pyClamp ((pyClamp (e.getD 50) 0 100 * w.exposure +
        pyClamp (s.getD 50) 0 100 * w.sharpness +
        pyClamp (c.getD 50) 0 100 * w.color) /
          max 0.0001 (w.exposure + w.sharpness + w.color)) 0 100) 1 ∧
    0 ≤ (score_image e s c (some w)).overall_0_100 ∧
    (score_image e s c (some w)).overall_0_100 ≤ 100 ∧
    (score_image e s c (some w)).sub_exposure = pyRound (pyClamp (e.getD 50) 0 100) 1 ∧
    (score_image e s c (some w)).sub_sharpness = pyRound (pyClamp (s.getD 50) 0 100) 1 ∧
    (score_image e s c (some w)).sub_color = pyRound (pyClamp (c.getD 50) 0 100) 1 := by
  refine ⟨rfl, ?_, ?_, rfl, rfl, rfl⟩
  · exact pyRound_nonneg 1 (pyClamp_mem _ 0 100 (by norm_num)).1
  · have h := (pyClamp_mem ((pyClamp (getScore e) 0 100 * w.exposure +
      pyClamp (getScore s) 0 100 * w.sharpness +
      pyClamp (getScore c) 0 100 * w.color) /
        max 0.0001 (w.exposure + w.sharpness + w.color)) 0 100 (by norm_num)).2
    have := pyRound_le_intCast (B := 100) 1 (by exact_mod_cast h)
    exact_mod_cast this

theorem C1_aggregate_formula_rounded_witness :
    0 ≤ ({} : ScoreWeights).exposure ∧
    0 ≤ ({} : ScoreWeights).sharpness ∧
    0 ≤ ({} : ScoreWeights).color ∧
    ((score_image (some 1.23) (some 50) (some 50) (some {})).overall_0_100 =
      pyRound (pyClamp ((pyClamp ((some (1.23:ℚ)).getD 50) 0 100 * ({} : ScoreWeights).exposure +
        pyClamp ((some (50:ℚ)).getD 50) 0 100 * ({} : ScoreWeights).sharpness +
        pyClamp ((some (50:ℚ)).getD 50) 0 100 * ({} : ScoreWeights).color) /
          max 0.0001 (({} : ScoreWeights).exposure + ({} : ScoreWeights).sharpness +
            ({} : ScoreWeights).color)) 0 100) 1 ∧
      0 ≤ (score_image (some 1.23) (some 50) (some 50) (some {})).overall_0_100 ∧
      (score_image (some 1.23) (some 50) (some 50) (some {})).overall_0_100 ≤ 100 ∧
      (score_image (some 1.23) (some 50) (some 50) (some {})).sub_exposure =
        pyRound (pyClamp ((some (1.23:ℚ)).getD 50) 0 100) 1 ∧
      (score_image (some 1.23) (some 50) (some 50) (some {})).sub_sharpness =
        pyRound (pyClamp ((some (50:ℚ)).getD 50) 0 100) 1 ∧
      (score_image (some 1.23) (some 50) (some 50) (some {})).sub_color =
        pyRound (pyClamp ((some (50:ℚ)).getD 50) 0 100) 1) :=
  ⟨by norm_num, by norm_num, by norm_num,
    C1_aggregate_formula_rounded (some 1.23) (some 50) (some 50) {}
      (by norm_num) (by norm_num) (by norm_num)⟩

/-- C2: the letter grade of `score_image` is determined by fixed thresholds on
the (unrounded, clamped) overall score — A iff ≥ 93, B iff ∈ [85,93), C iff
∈ [75,85), D iff ∈ [65,75), F iff < 65 — and it is monotone: whenever one
input's overall score is at least another's, its grade ranks at least as
high. -/
theorem C2_grade_thresholds_monotone
    (e1 s1 c1 e2 s2 c2 : Option ℚ) (w1 w2 : Option ScoreWeights)
    (h : overallRaw e2 s2 c2 w2 ≤ overallRaw e1 s1 c1 w1) :
    (score_image e1 s1 c1 w1).grade = gradeOf (overallRaw e1 s1 c1 w1) ∧
    ((score_image e1 s1 c1 w1).grade = "A" ↔ 93 ≤ overallRaw e1 s1 c1 w1) ∧
    ((score_image e1 s1 c1 w1).grade = "B" ↔
      85 ≤ overallRaw e1 s1 c1 w1 ∧ overallRaw e1 s1 c1 w1 < 93) ∧
    ((score_image e1 s1 c1 w1).grade = "C" ↔
      75 ≤ overallRaw e1 s1 c1 w1 ∧ overallRaw e1 s1 c1 w1 < 85) ∧
    ((score_image e1 s1 c1 w1).grade = "D" ↔
      65 ≤ overallRaw e1 s1 c1 w1 ∧ overallRaw e1 s1 c1 w1 < 75) ∧
    ((score_image e1 s1 c1 w1).grade = "F" ↔ overallRaw e1 s1 c1 w1 < 65) ∧
    gradeRank ((score_image e2 s2 c2 w2).grade) ≤
      gradeRank ((score_image e1 s1 c1 w1).grade) :=
  ⟨rfl, gradeOf_eq_A_iff _, gradeOf_eq_B_iff _, gradeOf_eq_C_iff _,
    gradeOf_eq_D_iff _, gradeOf_eq_F_iff _, gradeRank_gradeOf_mono h⟩

theorem C2_grade_thresholds_monotone_witness :
    overallRaw (some 40) (some 40) (some 40) none ≤
      overallRaw (some 100) (some 100) (some 100) none ∧
    ((score_image (some 100) (some 100) (some 100) none).grade = "A" ↔
      93 ≤ overallRaw (some 100) (some 100) (some 100) none) ∧
    gradeRank ((score_image (some 40) (some 40) (some 40) none).grade) ≤
      gradeRank ((score_image (some 100) (some 100) (some 100) none).grade) := by
  have h : overallRaw (some 40) (some 40) (some 40) none ≤
      overallRaw (some 100) (some 100) (some 100) none := by
    norm_num [overallRaw, getScore, pyClamp, min_def, max_def]
  have main := C2_grade_thresholds_monotone
    (some 100) (some 100) (some 100) (some 40) (some 40) (some 40) none none h
  exact ⟨h, main.2.1, main.2.2.2.2.2.2⟩

/-- C10: the aggregator computes the letter grade from the overall score
BEFORE rounding, while `overall_0_100` is reported rounded to one decimal;
with all three subscores 92.96 (default weights) the returned record has
`overall_0_100 = 93.0` yet grade `"B"`, although the thresholds applied to
the reported 93.0 would give `"A"`. -/
theorem C10_grade_before_rounding :
    (∀ (e s c : Option ℚ) (w : Option ScoreWeights),
      (score_image e s c w).grade = gradeOf (overallRaw e s c w)) ∧
    overallRaw (some 92.96) (some 92.96) (some 92.96) none = 92.96 ∧
    (score_image (some 92.96) (some 92.96) (some 92.96) none).overall_0_100 = 93 ∧
    (score_image (some 92.96) (some 92.96) (some 92.96) none).grade = "B" ∧
    gradeOf ((score_image (some 92.96) (some 92.96) (some 92.96) none).overall_0_100) = "A" := by
  refine ⟨fun e s c w => rfl, ?_, ?_, ?_, ?_⟩ <;>
    norm_num [score_image, overallRaw, gradeOf, getScore, pyClamp, pyRound, roundEven,
      min_def, max_def]

/-! ## Claim theorems: print readiness -/

/-- Concrete evaluation of `dpi_recommendations(3000, 2000, 10, 6.67)`. -/
theorem dpiRec_3000_2000_eval :
    dpi_recommendations 3000 2000 (some 10) (some 6.67) =
    .ok { width_px := 3000, height_px := 2000
          max_print_at_300ppi := { max_width_in := 10, max_height_in := 6.67, target_ppi := 300 }
          max_print_at_240ppi := { max_width_in := 12.5, max_height_in := 8.33, target_ppi := 240 }
          max_print_at_200ppi := { max_width_in := 15, max_height_in := 10, target_ppi := 200 }
          max_print_at_150ppi := { max_width_in := 20, max_height_in := 13.33, target_ppi := 150 }
          target_print_size_in := some { width_in := 10, height_in := 6.67 }
          effective := some { ppi_width := 300, ppi_height := 299.85, ppi_min := 299.85 }
          quality := some { tier := "very_good", message := "Very good print quality (240+ PPI)." } } := by
  have h300 : max_print_size_for_target_ppi 3000 2000 300 =
      .ok { max_width_in := 10, max_height_in := 6.67, target_ppi := 300 } := by
    norm_num [max_print_size_for_target_ppi, pyRound, roundEven]
  have h240 : max_print_size_for_target_ppi 3000 2000 240 =
      .ok { max_width_in := 12.5, max_height_in := 8.33, target_ppi := 240 } := by
    norm_num [max_print_size_for_target_ppi, pyRound, roundEven]
  have h200 : max_print_size_for_target_ppi 3000 2000 200 =
      .ok { max_width_in := 15, max_height_in := 10, target_ppi := 200 } := by
    norm_num [max_print_size_for_target_ppi, pyRound, roundEven]
  have h150 : max_print_size_for_target_ppi 3000 2000 150 =
      .ok { max_width_in := 20, max_height_in := 13.33, target_ppi := 150 } := by
    norm_num [max_print_size_for_target_ppi, pyRound, roundEven]
  have heff : effective_ppi 3000 2000 { width_in := 10, height_in := 6.67 } =
      .ok { ppi_width := 300, ppi_height := 299.85, ppi_min := 299.85 } := by
    norm_num [effective_ppi, pyRound, roundEven]
  have hq : quality_tier 299.85 =
      { tier := "very_good", message := "Very good print quality (240+ PPI)." } := by
    norm_num [quality_tier]
  have h667 : ((6.67 : ℚ) = 0) = False := by norm_num
  have h10 : ((10 : ℚ) = 0) = False := by norm_num
  simp [dpi_recommendations, h300, h240, h200, h150, heff, hq, pyTruthy, h667, h10,
    bind, Except.bind]

/-- C3 (counterexample). The claim says `computePrintReadiness(3000, 2000,
10, 6.67)` yields quality tier `"excellent"`; the code returns
`ppi_min = 299.85`, which falls below the 300 threshold, so the tier is
`"very_good"`. -/
theorem C3_claim_counterexample :
    (dpi_recommendations 3000 2000 (some 10) (some 6.67)).map
      (fun o => (o.effective.map EffectivePpi.ppi_min, o.quality.map QualityTier.tier)) =
      .ok (some 299.85, some "very_good") ∧
    "very_good" ≠ "excellent" := by
  rw [dpiRec_3000_2000_eval]
  exact ⟨rfl, by decide⟩

/-- C3 (amended): `computePrintReadiness(3000, 2000, 10, 6.67)` returns an
`effective_ppi` record whose `ppi_min` is 299.85 (approximately 300, within
0.15) and a quality tier equal to `"very_good"`, since 299.85 < 300 misses
the `"excellent"` threshold. -/
theorem C3_print_readiness_3000x2000 :
    (dpi_recommendations 3000 2000 (some 10) (some 6.67)).map
      (fun o => (o.effective.map EffectivePpi.ppi_min, o.quality.map QualityTier.tier)) =
      .ok (some 299.85, some "very_good") ∧
    (299.85 : ℚ) < 300 ∧ |(299.85 : ℚ) - 300| ≤ 0.15 := by
  rw [dpiRec_3000_2000_eval]
  refine ⟨rfl, by norm_num, by rw [abs_le]; constructor <;> norm_num⟩

/-- Concrete evaluation of `dpi_recommendations(300, 150, None, None)`. -/
theorem dpiRec_300_150_eval :
    dpi_recommendations 300 150 none none =
    .ok { width_px := 300, height_px := 150
          max_print_at_300ppi := { max_width_in := 1, max_height_in := 0.5, target_ppi := 300 }
          max_print_at_240ppi := { max_width_in := 1.25, max_height_in := 0.62, target_ppi := 240 }
          max_print_at_200ppi := { max_width_in := 1.5, max_height_in := 0.75, target_ppi := 200 }
          max_print_at_150ppi := { max_width_in := 2, max_height_in := 1, target_ppi := 150 }
          target_print_size_in := none
          effective := none
          quality := none } := by
  have h300 : max_print_size_for_target_ppi 300 150 300 =
      .ok { max_width_in := 1, max_height_in := 0.5, target_ppi := 300 } := by
    norm_num [max_print_size_for_target_ppi, pyRound, roundEven]
  have h240 : max_print_size_for_target_ppi 300 150 240 =
      .ok { max_width_in := 1.25, max_height_in := 0.62, target_ppi := 240 } := by
    norm_num [max_print_size_for_target_ppi, pyRound, roundEven]
  have h200 : max_print_size_for_target_ppi 300 150 200 =
      .ok { max_width_in := 1.5, max_height_in := 0.75, target_ppi := 200 } := by
    norm_num [max_print_size_for_target_ppi, pyRound, roundEven]
  have h150 : max_print_size_for_target_ppi 300 150 150 =
      .ok { max_width_in := 2, max_height_in := 1, target_ppi := 150 } := by
    norm_num [max_print_size_for_target_ppi, pyRound, roundEven]
  simp [dpi_recommendations, h300, h240, h200, h150, pyTruthy, bind, Except.bind]

/-- C9: the print-readiness functions reject non-positive numeric arguments
with an invalid-argument error — `max_print_size_for_target_ppi` fails for
every `target_ppi ≤ 0`, `effective_ppi` fails whenever either print
dimension is ≤ 0, `dpi_recommendations` fails whenever `px_w ≤ 0` or
`px_h ≤ 0` — and every successful `dpi_recommendations` call carries
max-print-size entries for exactly the four presets 300/240/200/150 PPI. -/
theorem C9_invalid_args_rejected :
    (∀ (px_w px_h : ℤ) (t : ℚ), t ≤ 0 →
      max_print_size_for_target_ppi px_w px_h t = .error "target_ppi must be positive.") ∧
    (∀ (px_w px_h : ℤ) (size : PrintSizeInches),
      size.width_in ≤ 0 ∨ size.height_in ≤ 0 →
      effective_ppi px_w px_h size = .error "Print size must be positive inches.") ∧
    (∀ (px_w px_h : ℤ) (tw th : Option ℚ), px_w ≤ 0 ∨ px_h ≤ 0 →
      dpi_recommendations px_w px_h tw th = .error "Pixel dimensions must be positive integers.") ∧
    (∀ (px_w px_h : ℤ) (tw th : Option ℚ) (out : DpiRecommendations),
      dpi_recommendations px_w px_h tw th = .ok out →
      out.max_print_at_300ppi.target_ppi = 300 ∧
      out.max_print_at_240ppi.target_ppi = 240 ∧
      out.max_print_at_200ppi.target_ppi = 200 ∧
      out.max_print_at_150ppi.target_ppi = 150) := by
  refine ⟨?_, ?_, ?_, ?_⟩
  · intro px_w px_h t ht
    simp [max_print_size_for_target_ppi, ht]
  · intro px_w px_h size hsz
    simp [effective_ppi, hsz]
  · intro px_w px_h tw th hpx
    simp [dpi_recommendations, hpx]
  · intro px_w px_h tw th out h
    unfold dpi_recommendations at h
    by_cases hpx : px_w ≤ 0 ∨ px_h ≤ 0
    · rw [if_pos hpx] at h
      simp at h
    · rw [if_neg hpx] at h
      have h300 : max_print_size_for_target_ppi px_w px_h 300 =
        .ok { max_width_in := pyRound ((px_w : ℚ) / 300) 2
              max_height_in := pyRound ((px_h : ℚ) / 300) 2, target_ppi := 300 } := by
        norm_num [max_print_size_for_target_ppi]
      have h240 : max_print_size_for_target_ppi px_w px_h 240 =
        .ok { max_width_in := pyRound ((px_w : ℚ) / 240) 2
              max_height_in := pyRound ((px_h : ℚ) / 240) 2, target_ppi := 240 } := by
        norm_num [max_print_size_for_target_ppi]
      have h200 : max_print_size_for_target_ppi px_w px_h 200 =
        .ok { max_width_in := pyRound ((px_w : ℚ) / 200) 2
              max_height_in := pyRound ((px_h : ℚ) / 200) 2, target_ppi := 200 } := by
        norm_num [max_print_size_for_target_ppi]
      have h150 : max_print_size_for_target_ppi px_w px_h 150 =
        .ok { max_width_in := pyRound ((px_w : ℚ) / 150) 2
              max_height_in := pyRound ((px_h : ℚ) / 150) 2, target_ppi := 150 } := by
        norm_num [max_print_size_for_target_ppi]
      rw [h300, h240, h200, h150] at h
      simp only [bind, Except.bind] at h
      by_cases htr : (pyTruthy tw && pyTruthy th) = true
      · rw [if_pos htr] at h
        cases heff : effective_ppi px_w px_h
          { width_in := tw.getD 0, height_in := th.getD 0 } with
        | error e =>
          rw [heff] at h
          simp at h
        | ok v =>
          rw [heff] at h
          simp only [Except.ok.injEq] at h
          subst h
          exact ⟨rfl, rfl, rfl, rfl⟩
      · rw [if_neg htr] at h
        simp only [Except.ok.injEq] at h
        subst h
        exact ⟨rfl, rfl, rfl, rfl⟩

theorem C9_invalid_args_rejected_witness :
    max_print_size_for_target_ppi 1000 1000 0 = .error "target_ppi must be positive." ∧
    effective_ppi 2000 2000 { width_in := 0, height_in := 5 } =
      .error "Print size must be positive inches." ∧
    dpi_recommendations 0 100 none none = .error "Pixel dimensions must be positive integers." ∧
    ((dpi_recommendations 300 150 none none).map
        (fun o => o.max_print_at_300ppi.target_ppi) = .ok 300) := by
  have h4 := C9_invalid_args_rejected.2.2.2 300 150 none none _ dpiRec_300_150_eval
  refine ⟨C9_invalid_args_rejected.1 1000 1000 0 (by norm_num),
    C9_invalid_args_rejected.2.1 2000 2000 _ (Or.inl (by norm_num)),
    C9_invalid_args_rejected.2.2.1 0 100 none none (Or.inl (by norm_num)), ?_⟩
  rw [dpiRec_300_150_eval]
  simpa [Except.map] using h4.1

/-- C8 (counterexample). The claim quantifies over EVERY positive pixel
dimensions and target PPI, but at `px_w = px_h = 1`, `p = 300` the max print
size rounds to 0.00 × 0.00 inches, and feeding that back into
`effective_ppi` raises the invalid-argument error instead of returning a
`ppi_min` near 300. -/
theorem C8_claim_counterexample :
    max_print_size_for_target_ppi 1 1 300 =
      .ok { max_width_in := 0, max_height_in := 0, target_ppi := 300 } ∧
    effective_ppi 1 1 { width_in := 0, height_in := 0 } =
      .error "Print size must be positive inches." := by
  constructor
  · norm_num [max_print_size_for_target_ppi, pyRound, roundEven]
  · norm_num [effective_ppi]

/-- C8 (amended): for all positive pixel dimensions and positive target PPI
`p` such that the two rounded inch dimensions returned by
`max_print_size_for_target_ppi` are still positive, feeding them back into
`effective_ppi` succeeds and yields a `ppi_min` approximately equal to `p`:
`|ppi_min − p| ≤ p / (200·min(w_in, h_in)) + 1/200`, the error coming only
from the two-decimal rounding of the inch sizes and of `ppi_min` itself. -/
theorem C8_inverse_consistency (px_w px_h : ℤ) (p : ℚ)
    (hw : 0 < px_w) (hh : 0 < px_h) (hp : 0 < p)
    (hw2 : 0 < pyRound ((px_w : ℚ) / p) 2) (hh2 : 0 < pyRound ((px_h : ℚ) / p) 2) :
    max_print_size_for_target_ppi px_w px_h p =
      .ok { max_width_in := pyRound ((px_w : ℚ) / p) 2
            max_height_in := pyRound ((px_h : ℚ) / p) 2
            target_ppi := p } ∧
    ∃ eff : EffectivePpi,
      effective_ppi px_w px_h
        { width_in := pyRound ((px_w : ℚ) / p) 2
          height_in := pyRound ((px_h : ℚ) / p) 2 } = .ok eff ∧
      |eff.ppi_min - p| ≤
        p / (200 * min (pyRound ((px_w : ℚ) / p) 2) (pyRound ((px_h : ℚ) / p) 2)) + 1/200 := by
  set w' : ℚ := pyRound ((px_w : ℚ) / p) 2 with hwdef
  set h' : ℚ := pyRound ((px_h : ℚ) / p) 2 with hhdef
  constructor
  · unfold max_print_size_for_target_ppi
    rw [if_neg (not_le.mpr hp)]
  · have heq : effective_ppi px_w px_h { width_in := w', height_in := h' } =
        .ok { ppi_width := pyRound ((px_w : ℚ) / w') 2
              ppi_height := pyRound ((px_h : ℚ) / h') 2
              ppi_min := pyRound (min ((px_w : ℚ) / w') ((px_h : ℚ) / h')) 2 } := by
      unfold effective_ppi
      rw [if_neg]
      simp only [not_or, not_le]
      exact ⟨hw2, hh2⟩
    refine ⟨_, heq, ?_⟩
    have h200 : (1 : ℚ) / (2 * (10:ℚ)^2) = 1/200 := by norm_num
    -- rounding error of the two inch sizes
    have habsw : |w' - (px_w : ℚ) / p| ≤ 1/200 := by
      rw [hwdef]
      simpa [h200] using abs_pyRound_sub ((px_w : ℚ) / p) 2
    have habsh : |h' - (px_h : ℚ) / p| ≤ 1/200 := by
      rw [hhdef]
      simpa [h200] using abs_pyRound_sub ((px_h : ℚ) / p) 2
    -- recovered PPIs are close to p
    have ha : |(px_w : ℚ) / w' - p| ≤ p / (200 * w') := by
      have hpx : (px_w : ℚ) = p * ((px_w : ℚ) / p) := by
        field_simp
      have key : (px_w : ℚ) / w' - p = p * ((px_w : ℚ) / p - w') / w' := by
        rw [hpx]
        field_simp
        ring
      rw [key, abs_div, abs_mul, abs_of_pos hp, abs_of_pos hw2]
      have habsw' : |(px_w : ℚ) / p - w'| ≤ 1/200 := by
        rw [abs_sub_comm]
        exact habsw
      calc p * |(px_w : ℚ) / p - w'| / w' ≤ p * (1/200) / w' := by gcongr
        _ = p / (200 * w') := by ring
    have hb : |(px_h : ℚ) / h' - p| ≤ p / (200 * h') := by
      have hpx : (px_h : ℚ) = p * ((px_h : ℚ) / p) := by
        field_simp
      have key : (px_h : ℚ) / h' - p = p * ((px_h : ℚ) / p - h') / h' := by
        rw [hpx]
        field_simp
        ring
      rw [key, abs_div, abs_mul, abs_of_pos hp, abs_of_pos hh2]
      have habsh' : |(px_h : ℚ) / p - h'| ≤ 1/200 := by
        rw [abs_sub_comm]
        exact habsh
      calc p * |(px_h : ℚ) / p - h'| / h' ≤ p * (1/200) / h' := by gcongr
        _ = p / (200 * h') := by ring
    -- so is their min
    have hminpos : 0 < min w' h' := lt_min hw2 hh2
    have hrelw : p / (200 * w') ≤ p / (200 * min w' h') :=
      div_le_div_of_nonneg_left (le_of_lt hp) (by positivity)
        (by nlinarith [min_le_left w' h'])
    have hrelh : p / (200 * h') ≤ p / (200 * min w' h') :=
      div_le_div_of_nonneg_left (le_of_lt hp) (by positivity)
        (by nlinarith [min_le_right w' h'])
    have hm : |min ((px_w : ℚ) / w') ((px_h : ℚ) / h') - p| ≤ p / (200 * min w' h') := by
      rcases le_total ((px_w : ℚ) / w') ((px_h : ℚ) / h') with hab | hab
      · rw [min_eq_left hab]
        exact le_trans ha hrelw
      · rw [min_eq_right hab]
        exact le_trans hb hrelh
    -- final two-decimal rounding of ppi_min
    have hfin : |pyRound (min ((px_w : ℚ) / w') ((px_h : ℚ) / h')) 2 -
        min ((px_w : ℚ) / w') ((px_h : ℚ) / h')| ≤ 1/200 := by
      simpa [h200] using abs_pyRound_sub (min ((px_w : ℚ) / w') ((px_h : ℚ) / h')) 2
    have tri := abs_sub_le (pyRound (min ((px_w : ℚ) / w') ((px_h : ℚ) / h')) 2)
      (min ((px_w : ℚ) / w') ((px_h : ℚ) / h')) p
    simp only []
    linarith

theorem C8_inverse_consistency_witness :
    0 < (3000 : ℤ) ∧ 0 < (2000 : ℤ) ∧ 0 < (300 : ℚ) ∧
    0 < pyRound ((3000 : ℚ) / 300) 2 ∧ 0 < pyRound ((2000 : ℚ) / 300) 2 ∧
    (max_print_size_for_target_ppi 3000 2000 300 =
      .ok { max_width_in := pyRound ((3000 : ℚ) / 300) 2
            max_height_in := pyRound ((2000 : ℚ) / 300) 2
            target_ppi := 300 } ∧
    ∃ eff : EffectivePpi,
      effective_ppi 3000 2000
        { width_in := pyRound ((3000 : ℚ) / 300) 2
          height_in := pyRound ((2000 : ℚ) / 300) 2 } = .ok eff ∧
      |eff.ppi_min - 300| ≤
        300 / (200 * min (pyRound ((3000 : ℚ) / 300) 2) (pyRound ((2000 : ℚ) / 300) 2)) + 1/200) :=
  ⟨by norm_num, by norm_num, by norm_num,
    by norm_num [pyRound, roundEven], by norm_num [pyRound, roundEven],
    C8_inverse_consistency 3000 2000 300 (by norm_num) (by norm_num) (by norm_num)
      (by norm_num [pyRound, roundEven]) (by norm_num [pyRound, roundEven])⟩

/-! ## Claim theorems: analyzer failure handling -/

/-- C5 (evaluation at the failing input). Each analyzer guards only the
Pillow import and the file-existence check with early `available=false`
returns; the `Image.open` decode itself is unguarded, so on an existing but
undecodable file the raised `UnidentifiedImageError` propagates to the
caller instead of an `available=false` result — contradicting the claim.
The two guarded paths do return `available=false` as claimed. -/
theorem C5_decode_failure_raises :
    exposure_metrics_run true true false =
      .error "UnidentifiedImageError: cannot identify image file" ∧
    sharpness_metrics_run true true false =
      .error "UnidentifiedImageError: cannot identify image file" ∧
    color_metrics_run true true false =
      .error "UnidentifiedImageError: cannot identify image file" ∧
    exposure_metrics_run false true true = .ok (.unavailable "Pillow not installed") ∧
    exposure_metrics_run true false true = .ok (.unavailable "File not found") :=
  ⟨rfl, rfl, rfl, rfl, rfl⟩

/-! ## Claim theorems: exposure on uniform mid-gray -/

/-- C4 (counterexample). The claim says the exposure score is near 100 for a
uniform mid-gray image (mean 128 in the ideal band, no clipping). On a
100-pixel uniform mid-gray image the code returns exactly 85 — 15 points
below 100, below even the A-grade band — because the degenerate dynamic
range (p95 − p05 = 0 < 60) triggers the penalty `(60 − 0) * 0.25 = 15`. -/
theorem C4_claim_counterexample :
    (exposure_metrics_from_hist (uniformMidGrayHist 100)).score_0_100 = 85 ∧
    (exposure_metrics_from_hist (uniformMidGrayHist 100)).brightness_mean_0_255 = 128 ∧
    (exposure_metrics_from_hist (uniformMidGrayHist 100)).clipped_shadows_pct = 0 ∧
    (exposure_metrics_from_hist (uniformMidGrayHist 100)).clipped_highlights_pct = 0 ∧
    ¬ (93 ≤ (exposure_metrics_from_hist (uniformMidGrayHist 100)).score_0_100) ∧
    (100 : ℚ) - (exposure_metrics_from_hist (uniformMidGrayHist 100)).score_0_100 = 15 := by
  have h := exposure_uniformMidGray_eval 100 (by norm_num)
  refine ⟨h.1, h.2.1, h.2.2.2.2.2.1, h.2.2.2.2.2.2, ?_, ?_⟩ <;> rw [h.1] <;> norm_num

/-- C4 (amended): for a uniform mid-gray image (every pixel luminance 128)
with at least 20 pixels, the exposure analyzer returns `score_0_100`
exactly 85: the mean 128 lies inside the ideal band [110,145] and there is
no clipping, but the dynamic range is 0 (< 60), which subtracts
`(60 − 0) * 0.25 = 15` from the initial 100. -/
theorem C4_exposure_uniform_midgray (n : ℕ) (hn : 20 ≤ n) :
    (exposure_metrics_from_hist (uniformMidGrayHist n)).available = true ∧
    (exposure_metrics_from_hist (uniformMidGrayHist n)).brightness_mean_0_255 = 128 ∧
    (exposure_metrics_from_hist (uniformMidGrayHist n)).dynamic_range_0_255 = 0 ∧
    (exposure_metrics_from_hist (uniformMidGrayHist n)).clipped_shadows_pct = 0 ∧
    (exposure_metrics_from_hist (uniformMidGrayHist n)).clipped_highlights_pct = 0 ∧
    (exposure_metrics_from_hist (uniformMidGrayHist n)).score_0_100 = 85 := by
  have h := exposure_uniformMidGray_eval n hn
  exact ⟨rfl, h.2.1, h.2.2.2.2.1, h.2.2.2.2.2.1, h.2.2.2.2.2.2, h.1⟩

theorem C4_exposure_uniform_midgray_witness :
    20 ≤ 100 ∧
    (exposure_metrics_from_hist (uniformMidGrayHist 100)).available = true ∧
    (exposure_metrics_from_hist (uniformMidGrayHist 100)).score_0_100 = 85 := by
  have h := C4_exposure_uniform_midgray 100 (by norm_num)
  exact ⟨by norm_num, h.1, h.2.2.2.2.2⟩

/-! ## Claim theorems: MetricResult score invariant -/

/-- One-decimal rounding preserves the [0, 100] range. -/
theorem pyRound1_mem {α : Type} [LinearOrderedField α] [FloorRing α]
    {x : α} (h0 : 0 ≤ x) (h1 : x ≤ 100) :
    0 ≤ pyRound x 1 ∧ pyRound x 1 ≤ 100 := by
  constructor
  · exact pyRound_nonneg 1 h0
  · have hle : x ≤ ((100 : ℤ) : α) := by
      push_cast
      exact h1
    have h := pyRound_le_intCast 1 hle
    calc pyRound x 1 ≤ ((100 : ℤ) : α) := h
      _ = 100 := by push_cast; ring

/-- C6: on the success path, every analyzer returns `available = true` with
`score_0_100` inside [0, 100] — for the exposure analyzer on any histogram,
the sharpness analyzer on any Laplacian stddev, and the color analyzer on
any channel statistics and saturation histogram. -/
theorem C6_score_invariant :
    (∀ hist : ℕ → ℕ,
      (exposure_metrics_from_hist hist).available = true ∧
      0 ≤ (exposure_metrics_from_hist hist).score_0_100 ∧
      (exposure_metrics_from_hist hist).score_0_100 ≤ 100) ∧
    (∀ stddev : ℝ,
      (sharpness_metrics_from_stddev stddev).available = true ∧
      0 ≤ (sharpness_metrics_from_stddev stddev).score_0_100 ∧
      (sharpness_metrics_from_stddev stddev).score_0_100 ≤ 100) ∧
    (∀ (mean_r mean_g mean_b s_mean_0_1 : ℚ) (s_hist : ℕ → ℕ),
      (color_metrics_from_stats mean_r mean_g mean_b s_mean_0_1 s_hist).available = true ∧
      0 ≤ (color_metrics_from_stats mean_r mean_g mean_b s_mean_0_1 s_hist).score_0_100 ∧
      (color_metrics_from_stats mean_r mean_g mean_b s_mean_0_1 s_hist).score_0_100 ≤ 100) := by
  refine ⟨?_, ?_, ?_⟩
  · intro hist
    refine ⟨rfl, ?_, ?_⟩ <;> simp only [exposure_metrics_from_hist]
    · exact (pyRound1_mem (le_max_left _ _) (max_le (by norm_num) (min_le_left _ _))).1
    · exact (pyRound1_mem (le_max_left _ _) (max_le (by norm_num) (min_le_left _ _))).2
  · intro stddev
    have hb : ∀ z : ℝ,
        0 ≤ (if z < 25 then max 0 (max 0 (min 100 (100 * (1 - Real.exp (-z / 180)))) - 20)
             else max 0 (min 100 (100 * (1 - Real.exp (-z / 180))))) ∧
        (if z < 25 then max 0 (max 0 (min 100 (100 * (1 - Real.exp (-z / 180)))) - 20)
         else max 0 (min 100 (100 * (1 - Real.exp (-z / 180))))) ≤ 100 := by
      intro z
      constructor
      · split_ifs
        · exact le_max_left _ _
        · exact le_max_left _ _
      · split_ifs
        · refine max_le (by norm_num) ?_
          have h1 : max 0 (min 100 (100 * (1 - Real.exp (-z / 180)))) ≤ 100 :=
            max_le (by norm_num) (min_le_left _ _)
          linarith
        · exact max_le (by norm_num) (min_le_left _ _)
    refine ⟨rfl, ?_, ?_⟩ <;> simp only [sharpness_metrics_from_stddev]
    · exact (pyRound1_mem (hb (stddev * stddev)).1 (hb (stddev * stddev)).2).1
    · exact (pyRound1_mem (hb (stddev * stddev)).1 (hb (stddev * stddev)).2).2
  · intro mean_r mean_g mean_b s_mean_0_1 s_hist
    refine ⟨rfl, ?_, ?_⟩ <;> simp only [color_metrics_from_stats, pyClamp]
    · exact (pyRound1_mem (le_max_left _ _) (max_le (by norm_num) (min_le_left _ _))).1
    · exact (pyRound1_mem (le_max_left _ _) (max_le (by norm_num) (min_le_left _ _))).2

end PhotoCoach


